import Mathlib

/-!
# WebFileManager — authorization and notification core, shallow embedding

This file embeds the permission data model (`shared/schema.ts`), the storage
layer (`server/storage.ts`), the HTTP route handlers and the WebSocket relay
(`server/routes.ts`), and the client-side share dialog logic
(`ShareDialog.handleAddPermission`) as executable Lean definitions, and proves
or refutes the specification's claims about them.

Database rows are lists of records; drizzle's `select().where(eq(...))`
becomes `List.filter` followed by `head?` where the TypeScript destructures a
single row (`const [x] = await db...`).
-/

namespace WFM

/-- A row of the `users` table (`shared/schema.ts`): id, username, isAdmin.
The password column plays no role in any claim and is omitted. -/
structure User where
  id : Nat
  username : String
  isAdmin : Bool
deriving DecidableEq, Repr

/-- A row of the `files` table (`shared/schema.ts`): id and `uploadedBy`
(the uploader/owner). The name/path/size/mimeType/createdAt columns play no
role in authorization and are omitted. -/
structure File where
  id : Nat
  uploadedBy : Nat
deriving DecidableEq, Repr

/-- A row of the `file_permissions` table (`shared/schema.ts`): serial
primary key `id`, foreign keys `fileId` and `userId`, and the three
capability flags. Note the schema declares NO uniqueness constraint on the
(fileId, userId) pair — only `id` is a key. -/
structure FilePermission where
  id : Nat
  fileId : Nat
  userId : Nat
  canRead : Bool
  canWrite : Bool
  canShare : Bool
deriving DecidableEq, Repr

/-- The database state: the `files` and `file_permissions` tables.
(The `users` table is only read, never consulted by the route logic the
claims are about, so users are passed as plain values.) -/
structure Store where
  files : List File
  filePermissions : List FilePermission
deriving DecidableEq, Repr

/-! ## Storage layer (`server/storage.ts`, class DatabaseStorage) -/

/-- `DatabaseStorage.getFile`: `select from files where eq(files.id, id)`,
destructuring the first row. -/
def getFile (s : Store) (id : Nat) : Option File :=
  (s.files.filter (fun f => f.id == id)).head?

/-- `DatabaseStorage.getFiles`: `select from files`. -/
def getFiles (s : Store) : List File :=
  s.files

/-- `DatabaseStorage.getFilePermissions`: all permission rows with the given
`fileId`. -/
def getFilePermissions (s : Store) (fileId : Nat) : List FilePermission :=
  s.filePermissions.filter (fun p => p.fileId == fileId)

/-- `DatabaseStorage.getUserFilePermission`: the first row matching
`and(eq(fileId), eq(userId))`. -/
def getUserFilePermission (s : Store) (fileId userId : Nat) :
    Option FilePermission :=
  (s.filePermissions.filter
    (fun p => p.fileId == fileId && p.userId == userId)).head?

/-- `DatabaseStorage.createFilePermission`: a plain
`insert into file_permissions values (...) returning`. The serial key the
database would assign is passed in as `row.id`. There is no conflict clause
and no uniqueness constraint on (fileId, userId), so the insert always
succeeds and always appends a row. -/
def createFilePermission (s : Store) (row : FilePermission) : Store :=
  { s with filePermissions := s.filePermissions ++ [row] }

/-- A PATCH body: each capability flag is present (`some`) or `undefined`
(`none`). Drizzle's `.set` skips `undefined` fields. -/
structure PatchBody where
  canRead : Option Bool
  canWrite : Option Bool
  canShare : Option Bool
deriving DecidableEq, Repr

/-- Apply a drizzle `.set({canRead, canWrite, canShare})` with possibly
`undefined` fields to one row: `undefined` fields keep the old value. -/
def applyPatch (b : PatchBody) (p : FilePermission) : FilePermission :=
  { p with
    canRead := b.canRead.getD p.canRead
    canWrite := b.canWrite.getD p.canWrite
    canShare := b.canShare.getD p.canShare }

/-- `DatabaseStorage.updateFilePermission`: `update file_permissions set ...
where eq(filePermissions.id, id) returning`, destructuring the first
returned row. The WHERE clause matches on the primary key `id` ONLY — no
condition on `fileId`. When every field of the set object is `undefined`,
drizzle throws ("No values to set"); that is modelled by the outer `none`. -/
def updateFilePermission (s : Store) (id : Nat) (b : PatchBody) :
    Option (Option FilePermission × Store) :=
  if b.canRead = none ∧ b.canWrite = none ∧ b.canShare = none then
    none
  else
    let perms := s.filePermissions.map
      (fun p => if p.id == id then applyPatch b p else p)
    some ((perms.filter (fun p => p.id == id)).head?,
      { s with filePermissions := perms })

/-- `DatabaseStorage.deleteFilePermission`: `delete from file_permissions
where eq(filePermissions.id, id)` — again keyed on `id` only. -/
def deleteFilePermission (s : Store) (id : Nat) : Store :=
  { s with filePermissions := s.filePermissions.filter (fun p => !(p.id == id)) }

/-- `DatabaseStorage.deleteFile`: `delete from files where eq(files.id, id)`.
The schema's foreign keys carry `onDelete: "cascade"`, so permission rows of
the deleted file go with it. -/
def deleteFile (s : Store) (id : Nat) : Store :=
  { files := s.files.filter (fun f => !(f.id == id))
    filePermissions := s.filePermissions.filter (fun p => !(p.fileId == id)) }

/-! ## Access middleware (`server/routes.ts`, ensureFileAccess) -/

/-- Outcome of the `ensureFileAccess` middleware:
401 (not authenticated), 404 (file absent), 403 (access denied),
or `ok` (`next()` is called). -/
inductive AccessResult where
  | unauthorized
  | notFound
  | accessDenied
  | ok
deriving DecidableEq, Repr

/-- The check `req.user.isAdmin || file.uploadedBy === req.user.id`, repeated
verbatim in `ensureFileAccess`, the GET /api/files filter, and the
POST/PATCH/DELETE permission handlers. -/
def isOwnerOrAdmin (u : User) (f : File) : Bool :=
  u.isAdmin || f.uploadedBy == u.id

/-- `ensureFileAccess` (`server/routes.ts`): 401 if unauthenticated, 404 if
the file does not exist, pass for admin or owner, otherwise require a grant
row with `canRead` (403 if `!permission || !permission.canRead`). -/
def ensureFileAccess (auth : Bool) (u : User) (s : Store) (fileId : Nat) :
    AccessResult :=
  if !auth then .unauthorized
  else
    match getFile s fileId with
    | none => .notFound
    | some file =>
      if isOwnerOrAdmin u file then .ok
      else
        match getUserFilePermission s fileId u.id with
        | none => .accessDenied
        | some permission =>
          if !permission.canRead then .accessDenied else .ok

/-! ## File listing (`server/routes.ts`, GET /api/files) -/

/-- The per-file keep condition of the GET /api/files filter: admin and
owner keep the file; otherwise the file survives iff a grant row exists and
`permission?.canRead` is truthy. -/
def keepFile (u : User) (s : Store) (file : File) : Bool :=
  if isOwnerOrAdmin u file then true
  else
    match getUserFilePermission s file.id u.id with
    | some permission => permission.canRead
    | none => false

/-- The filtering step of GET /api/files, parameterised by the input list:
`files.map` to the file or `null`, then `.filter(Boolean)` — modelled as
`filterMap`. -/
def filterReadable (u : User) (s : Store) (fs : List File) : List File :=
  fs.filterMap (fun file => if keepFile u s file then some file else none)

/-- GET /api/files (after the authentication guard): list all files and
filter by readability. -/
def listFilesRoute (u : User) (s : Store) : List File :=
  filterReadable u s (getFiles s)

/-! ## Permission routes (`server/routes.ts`) -/

/-- HTTP outcome of the three /api/files/:fileId/permissions routes. -/
inductive PermResponse where
  | unauthorizedR                         -- 401
  | notFoundR                             -- 404
  | forbiddenR                            -- 403
  | created (p : FilePermission)          -- 201 with the new row
  | okJson (p : Option FilePermission)    -- 200, PATCH echoes the updated row
  | okStatus                              -- 200 via sendStatus
  | badRequest                            -- 400 from the catch block
deriving DecidableEq, Repr

/-- Body of POST /api/files/:fileId/permissions: `req.body.userId` plus the
three flags, each possibly absent (`?? default` in the handler). -/
structure PostBody where
  userId : Nat
  canRead : Option Bool
  canWrite : Option Bool
  canShare : Option Bool
deriving DecidableEq, Repr

/-- The POST handler's authority check: admin and owner pass; otherwise the
actor's own grant row must exist with `canShare`
(`if (!permission?.canShare) return 403`). -/
def canManagePermissions (u : User) (f : File) (s : Store) : Bool :=
  if isOwnerOrAdmin u f then true
  else
    match getUserFilePermission s f.id u.id with
    | some permission => permission.canShare
    | none => false

/-- POST /api/files/:fileId/permissions behind `ensureFileAccess`:
re-fetches the file (404 if absent), requires admin/owner/canShare, then
inserts a row with defaults `canRead ?? true`, `canWrite ?? false`,
`canShare ?? false`. `newId` is the serial key the database assigns. There
is NO check that `body.userId` differs from the actor's own id. -/
def postPermissionRoute (auth : Bool) (u : User) (s : Store) (fileId : Nat)
    (body : PostBody) (newId : Nat) : PermResponse × Store :=
  match ensureFileAccess auth u s fileId with
  | .unauthorized => (.unauthorizedR, s)
  | .notFound => (.notFoundR, s)
  | .accessDenied => (.forbiddenR, s)
  | .ok =>
    match getFile s fileId with
    | none => (.notFoundR, s)
    | some file =>
      if !(canManagePermissions u file s) then (.forbiddenR, s)
      else
        let row : FilePermission :=
          { id := newId
            fileId := fileId
            userId := body.userId
            canRead := body.canRead.getD true
            canWrite := body.canWrite.getD false
            canShare := body.canShare.getD false }
        (.created row, createFilePermission s row)

/-- PATCH /api/files/:fileId/permissions/:permissionId behind
`ensureFileAccess`: re-fetches the file (404 if absent), then ONLY owner or
admin may proceed (`if (!req.user!.isAdmin && file.uploadedBy !==
req.user!.id) return 403` — an actor whose grant has `canShare` is NOT let
through here). The update itself is keyed on `permissionId` alone. -/
def patchPermissionRoute (auth : Bool) (u : User) (s : Store)
    (fileId permissionId : Nat) (body : PatchBody) : PermResponse × Store :=
  match ensureFileAccess auth u s fileId with
  | .unauthorized => (.unauthorizedR, s)
  | .notFound => (.notFoundR, s)
  | .accessDenied => (.forbiddenR, s)
  | .ok =>
    match getFile s fileId with
    | none => (.notFoundR, s)
    | some file =>
      if !(isOwnerOrAdmin u file) then (.forbiddenR, s)
      else
        match updateFilePermission s permissionId body with
        | none => (.badRequest, s)
        | some (updated, s') => (.okJson updated, s')

/-- DELETE /api/files/:fileId/permissions/:permissionId behind
`ensureFileAccess`: re-fetches the file (404 if absent), ONLY owner or admin
may proceed, then deletes the row whose primary key is `permissionId` —
again with no check that the row belongs to `fileId`. -/
def deletePermissionRoute (auth : Bool) (u : User) (s : Store)
    (fileId permissionId : Nat) : PermResponse × Store :=
  match ensureFileAccess auth u s fileId with
  | .unauthorized => (.unauthorizedR, s)
  | .notFound => (.notFoundR, s)
  | .accessDenied => (.forbiddenR, s)
  | .ok =>
    match getFile s fileId with
    | none => (.notFoundR, s)
    | some file =>
      if !(isOwnerOrAdmin u file) then (.forbiddenR, s)
      else (.okStatus, deleteFilePermission s permissionId)

/-! ## File deletion (`server/routes.ts`, DELETE /api/files/:id) -/

/-- DELETE /api/files/:id: 401 if unauthenticated, then
`if (!req.user.isAdmin) return res.sendStatus(403)` — the admin gate comes
BEFORE the file is even fetched, so the uploader/owner is rejected like
anyone else; 404 if the file is absent; otherwise delete (permission rows
cascade). The result is the HTTP status code and the resulting store. -/
def deleteFileRoute (auth : Bool) (u : User) (s : Store) (id : Nat) :
    Nat × Store :=
  if !auth then (401, s)
  else if !u.isAdmin then (403, s)
  else
    match getFile s id with
    | none => (404, s)
    | some file => (200, deleteFile s file.id)

/-! ## WebSocket relay (`server/routes.ts`, wss.on('connection')) -/

/-- A connected WebSocket client: whether `readyState === WebSocket.OPEN`,
and the messages the server has sent it so far. -/
structure Client where
  id : Nat
  isOpen : Bool
  inbox : List String
deriving DecidableEq, Repr

/-- The server's entire WebSocket behaviour: on ANY inbound message from any
connection, `wss.clients.forEach` sends that message verbatim to every
client whose readyState is OPEN (including the sender). No other code in
`registerRoutes` ever sends on a WebSocket: in particular none of the
permission routes touches `wss`. -/
def broadcastOnMessage (clients : List Client) (message : String) :
    List Client :=
  clients.map (fun c =>
    if c.isOpen then { c with inbox := c.inbox ++ [message] } else c)

/-- Combined server state: database plus connected WebSocket clients, as
both live inside `registerRoutes`. -/
structure ServerState where
  store : Store
  clients : List Client
deriving DecidableEq, Repr

/-- The PATCH permission route lifted to the full server state. The handler
body in `routes.ts` contains no WebSocket code at all, so the client set —
inboxes included — passes through untouched whatever the mutation does. -/
def patchPermissionServer (auth : Bool) (u : User) (st : ServerState)
    (fileId permissionId : Nat) (body : PatchBody) :
    PermResponse × ServerState :=
  let (r, s') := patchPermissionRoute auth u st.store fileId permissionId body
  (r, { store := s', clients := st.clients })

/-- The POST permission route lifted to the full server state; like PATCH,
the handler never references `wss`. -/
def postPermissionServer (auth : Bool) (u : User) (st : ServerState)
    (fileId : Nat) (body : PostBody) (newId : Nat) :
    PermResponse × ServerState :=
  let (r, s') := postPermissionRoute auth u st.store fileId body newId
  (r, { store := s', clients := st.clients })

/-! ## Client-side share dialog (`ShareDialog.handleAddPermission`) -/

/-- Outcome of the client-side `handleAddPermission`: an error toast
("User not found" / "You cannot share with yourself"), or the mutation it
submits to POST /api/files/:fileId/permissions. -/
inductive ClientShareAction where
  | userNotFoundToast
  | selfShareToast
  | submit (body : PostBody)
deriving DecidableEq, Repr

/-- `handleAddPermission` in the ShareDialog component: resolve the typed
username against the user list; toast-and-return if absent; toast-and-return
if it is the current user ("You cannot share with yourself"); otherwise
mutate with `{userId, canRead: true, canWrite: false, canShare: false}`.
This is the ONLY place in the repository that rejects sharing with
oneself — the server never checks it. -/
def handleAddPermission (users : List User) (currentUserId : Nat)
    (username : String) : ClientShareAction :=
  match users.find? (fun u => u.username == username) with
  | none => .userNotFoundToast
  | some userToShare =>
    if userToShare.id == currentUserId then .selfShareToast
    else .submit
      { userId := userToShare.id
        canRead := some true
        canWrite := some false
        canShare := some false }

/-! ## Helper notions used by the claim statements -/

/-- All grant rows stored for one (fileId, userId) pair — the rows the
one-grant-per-pair invariant talks about. -/
def grantRowsFor (s : Store) (fileId userId : Nat) : List FilePermission :=
  s.filePermissions.filter (fun p => p.fileId == fileId && p.userId == userId)

/-- `filterReadable` is `List.filter` with the keep predicate of the
GET /api/files handler (the `map`-to-`null`-then-`filter(Boolean)` pipeline
drops exactly the files whose keep condition is false). -/
theorem filterReadable_eq_filter (u : User) (s : Store) (fs : List File) :
    filterReadable u s fs = fs.filter (keepFile u s) := by
  induction fs with
  | nil => rfl
  | cons a l ih =>
    by_cases h : keepFile u s a = true <;>
      simp [filterReadable, List.filterMap_cons, List.filter_cons, h] at ih ⊢ <;>
      exact ih

/-! ## Claim theorems -/

/-- C7: for every authenticated user and every fileId naming no existing
file, `ensureFileAccess` answers NotFound (404), which is a different
outcome from the AccessDenied (403) produced by a failed capability
check. -/
theorem authorize_missing_file_is_notFound (u : User) (s : Store)
    (fileId : Nat) (h : getFile s fileId = none) :
    ensureFileAccess true u s fileId = AccessResult.notFound ∧
    AccessResult.notFound ≠ AccessResult.accessDenied := by
  refine ⟨?_, by intro hc; cases hc⟩
  simp [ensureFileAccess, h]

/-- Witness for C7 at a concrete input: an empty store has no file 5. -/
theorem authorize_missing_file_is_notFound_witness :
    getFile ⟨[], []⟩ 5 = none ∧
    (ensureFileAccess true ⟨1, "bob", false⟩ ⟨[], []⟩ 5 =
        AccessResult.notFound ∧
      AccessResult.notFound ≠ AccessResult.accessDenied) :=
  ⟨rfl, authorize_missing_file_is_notFound ⟨1, "bob", false⟩ ⟨[], []⟩ 5 rfl⟩

/-- C10: DELETE /api/files/:id rejects every non-admin requester with 403
and leaves the store untouched — the admin gate fires before the file is
even loaded, so being the uploader/owner does not help. -/
theorem delete_file_requires_admin (u : User) (s : Store) (id : Nat)
    (h : u.isAdmin = false) :
    deleteFileRoute true u s id = (403, s) := by
  simp [deleteFileRoute, h]

/-- Witness for C10 at a concrete input: a non-admin user who IS the
uploader of file 1 still gets 403 and nothing changes. -/
theorem delete_file_requires_admin_witness :
    (⟨1, "alice", false⟩ : User).isAdmin = false ∧
    (⟨1, 1⟩ : File).uploadedBy = (⟨1, "alice", false⟩ : User).id ∧
    deleteFileRoute true ⟨1, "alice", false⟩ ⟨[⟨1, 1⟩], []⟩ 1 =
      (403, ⟨[⟨1, 1⟩], []⟩) :=
  ⟨rfl, rfl, delete_file_requires_admin ⟨1, "alice", false⟩ ⟨[⟨1, 1⟩], []⟩ 1 rfl⟩

/-- C8: `filterReadable` is idempotent — filtering its own output changes
nothing — and order-preserving — its output is a sublist (subsequence) of
the input. -/
theorem filterReadable_idempotent_ordered (u : User) (s : Store)
    (fs : List File) :
    filterReadable u s (filterReadable u s fs) = filterReadable u s fs ∧
    (filterReadable u s fs).Sublist fs := by
  simp only [filterReadable_eq_filter]
  refine ⟨?_, List.filter_sublist fs⟩
  rw [List.filter_filter]
  simp

/-- C6: an admin or the file's owner passes every capability checkpoint the
routes implement, whatever the grant table holds: `ensureFileAccess`
answers ok (read), the GET /api/files filter keeps the file (list), the
POST permission authority check passes (share), and the PATCH/DELETE
owner-or-admin check passes (modify) — all without consulting any grant
row. (No route ever consults `canWrite`, so no checkpoint can deny a write
to such a user either.) -/
theorem admin_owner_full_capabilities (u : User) (s : Store) (fileId : Nat)
    (file : File) (hf : getFile s fileId = some file)
    (h : u.isAdmin = true ∨ file.uploadedBy = u.id) :
    ensureFileAccess true u s fileId = AccessResult.ok ∧
    keepFile u s file = true ∧
    canManagePermissions u file s = true ∧
    isOwnerOrAdmin u file = true := by
  have hoa : isOwnerOrAdmin u file = true := by
    rcases h with h | h <;> simp [isOwnerOrAdmin, h]
  refine ⟨?_, ?_, ?_, hoa⟩ <;>
    simp [ensureFileAccess, hf, hoa, keepFile, canManagePermissions]

/-- Witness for C6 at a concrete input: a non-admin owner of file 1, with a
grant table that even stores an all-false grant row for that very pair. -/
theorem admin_owner_full_capabilities_witness :
    getFile ⟨[⟨1, 7⟩], [⟨1, 1, 7, false, false, false⟩]⟩ 1 = some ⟨1, 7⟩ ∧
    ((⟨7, "eve", false⟩ : User).isAdmin = true ∨
      (⟨1, 7⟩ : File).uploadedBy = (⟨7, "eve", false⟩ : User).id) ∧
    (ensureFileAccess true ⟨7, "eve", false⟩
        ⟨[⟨1, 7⟩], [⟨1, 1, 7, false, false, false⟩]⟩ 1 = AccessResult.ok ∧
      keepFile ⟨7, "eve", false⟩
        ⟨[⟨1, 7⟩], [⟨1, 1, 7, false, false, false⟩]⟩ ⟨1, 7⟩ = true ∧
      canManagePermissions ⟨7, "eve", false⟩ ⟨1, 7⟩
        ⟨[⟨1, 7⟩], [⟨1, 1, 7, false, false, false⟩]⟩ = true ∧
      isOwnerOrAdmin ⟨7, "eve", false⟩ ⟨1, 7⟩ = true) :=
  ⟨rfl, Or.inr rfl,
    admin_owner_full_capabilities ⟨7, "eve", false⟩
      ⟨[⟨1, 7⟩], [⟨1, 1, 7, false, false, false⟩]⟩ 1 ⟨1, 7⟩ rfl (Or.inr rfl)⟩

/-- C9: PATCH and DELETE on /api/files/:fileId/permissions/:permissionId
act on the row whose primary key equals `permissionId` with no check that
the row's own `fileId` matches the path's `fileId`: once the actor passes
the owner-or-admin check for the path's file — so in particular for a
non-admin owner of that file — a permission row that belongs to a DIFFERENT
file is updated (PATCH succeeds with 200 and the patched row is in the
store) and deleted (DELETE answers 200 and the row is gone). -/
theorem permission_mutation_ignores_fileId (u : User) (s : Store)
    (fileId : Nat) (file : File) (p : FilePermission) (r w sh : Bool)
    (hf : getFile s fileId = some file)
    (hu : isOwnerOrAdmin u file = true)
    (hp : p ∈ s.filePermissions)
    (hdiff : p.fileId ≠ fileId) :
    (∃ q, (patchPermissionRoute true u s fileId p.id
        ⟨some r, some w, some sh⟩).1 = PermResponse.okJson q) ∧
    applyPatch ⟨some r, some w, some sh⟩ p ∈
      (patchPermissionRoute true u s fileId p.id
        ⟨some r, some w, some sh⟩).2.filePermissions ∧
    (deletePermissionRoute true u s fileId p.id).1 = PermResponse.okStatus ∧
    p ∉ (deletePermissionRoute true u s fileId p.id).2.filePermissions := by
  have hoa : isOwnerOrAdmin u file = true := hu
  have hmid : ensureFileAccess true u s fileId = AccessResult.ok := by
    simp [ensureFileAccess, hf, hoa]
  have hup : updateFilePermission s p.id ⟨some r, some w, some sh⟩ =
      some (((s.filePermissions.map (fun q =>
          if q.id == p.id then applyPatch ⟨some r, some w, some sh⟩ q
          else q)).filter (fun q => q.id == p.id)).head?,
        { s with filePermissions := s.filePermissions.map (fun q =>
          if q.id == p.id then applyPatch ⟨some r, some w, some sh⟩ q
          else q) }) := by
    simp [updateFilePermission]
  have hpatch : patchPermissionRoute true u s fileId p.id
      ⟨some r, some w, some sh⟩ =
      (PermResponse.okJson (((s.filePermissions.map (fun q =>
          if q.id == p.id then applyPatch ⟨some r, some w, some sh⟩ q
          else q)).filter (fun q => q.id == p.id)).head?),
        { s with filePermissions := s.filePermissions.map (fun q =>
          if q.id == p.id then applyPatch ⟨some r, some w, some sh⟩ q
          else q) }) := by
    simp [patchPermissionRoute, hmid, hf, hoa, hup]
  have hdel : deletePermissionRoute true u s fileId p.id =
      (PermResponse.okStatus, deleteFilePermission s p.id) := by
    simp [deletePermissionRoute, hmid, hf, hoa]
  refine ⟨?_, ?_, ?_, ?_⟩
  · rw [hpatch]
    exact ⟨_, rfl⟩
  · rw [hpatch]
    exact List.mem_map.mpr ⟨p, hp, by simp⟩
  · rw [hdel]
  · rw [hdel]
    simp [deleteFilePermission, List.mem_filter]

/-- Witness for C9 at a concrete input: carol is a non-admin user who owns
file 1 but not file 2; permission row 1 belongs to file 2, yet PATCH and
DELETE through file 1's path mutate it. -/
theorem permission_mutation_ignores_fileId_witness :
    getFile ⟨[⟨1, 7⟩, ⟨2, 9⟩], [⟨1, 2, 5, true, false, false⟩]⟩ 1 =
      some ⟨1, 7⟩ ∧
    (⟨7, "carol", false⟩ : User).isAdmin = false ∧
    isOwnerOrAdmin ⟨7, "carol", false⟩ ⟨1, 7⟩ = true ∧
    (⟨1, 2, 5, true, false, false⟩ : FilePermission) ∈
      (⟨[⟨1, 7⟩, ⟨2, 9⟩], [⟨1, 2, 5, true, false, false⟩]⟩ :
        Store).filePermissions ∧
    (⟨1, 2, 5, true, false, false⟩ : FilePermission).fileId ≠ 1 ∧
    ((∃ q, (patchPermissionRoute true ⟨7, "carol", false⟩
        ⟨[⟨1, 7⟩, ⟨2, 9⟩], [⟨1, 2, 5, true, false, false⟩]⟩ 1
        (⟨1, 2, 5, true, false, false⟩ : FilePermission).id
        ⟨some true, some true, some true⟩).1 = PermResponse.okJson q) ∧
      applyPatch ⟨some true, some true, some true⟩
          ⟨1, 2, 5, true, false, false⟩ ∈
        (patchPermissionRoute true ⟨7, "carol", false⟩
          ⟨[⟨1, 7⟩, ⟨2, 9⟩], [⟨1, 2, 5, true, false, false⟩]⟩ 1
          (⟨1, 2, 5, true, false, false⟩ : FilePermission).id
          ⟨some true, some true, some true⟩).2.filePermissions ∧
      (deletePermissionRoute true ⟨7, "carol", false⟩
          ⟨[⟨1, 7⟩, ⟨2, 9⟩], [⟨1, 2, 5, true, false, false⟩]⟩ 1
          (⟨1, 2, 5, true, false, false⟩ : FilePermission).id).1 =
        PermResponse.okStatus ∧
      (⟨1, 2, 5, true, false, false⟩ : FilePermission) ∉
        (deletePermissionRoute true ⟨7, "carol", false⟩
          ⟨[⟨1, 7⟩, ⟨2, 9⟩], [⟨1, 2, 5, true, false, false⟩]⟩ 1
          (⟨1, 2, 5, true, false, false⟩ : FilePermission).id).2.filePermissions) :=
  ⟨rfl, rfl, rfl, by simp, by decide,
    permission_mutation_ignores_fileId ⟨7, "carol", false⟩
      ⟨[⟨1, 7⟩, ⟨2, 9⟩], [⟨1, 2, 5, true, false, false⟩]⟩ 1 ⟨1, 7⟩
      ⟨1, 2, 5, true, false, false⟩ true true true rfl rfl (by simp) (by decide)⟩

/-- C1 counterexample: the claim says creating a grant for a pair that
already has one never leaves two rows. Concretely, the owner of file 1
POSTs a grant for user 2 twice; the second insert succeeds as well and the
store ends up with TWO rows for the pair (fileId 1, userId 2). -/
theorem duplicate_grant_rows_counterexample :
    (grantRowsFor
      (postPermissionRoute true ⟨1, "alice", false⟩
        (postPermissionRoute true ⟨1, "alice", false⟩ ⟨[⟨1, 1⟩], []⟩ 1
          ⟨2, none, none, none⟩ 10).2 1
        ⟨2, none, none, none⟩ 11).2 1 2).length = 2 := by
  decide

/-- C1 as amended: `createFilePermission` neither fails nor replaces — it
unconditionally appends the new row, so whenever at least one grant row for
the pair already exists, the store afterwards holds at least two rows for
that same (fileId, userId) pair. -/
theorem createFilePermission_duplicates_pair (s : Store)
    (row : FilePermission)
    (h : 1 ≤ (grantRowsFor s row.fileId row.userId).length) :
    2 ≤ (grantRowsFor (createFilePermission s row)
      row.fileId row.userId).length := by
  have hsplit : grantRowsFor (createFilePermission s row) row.fileId
      row.userId = grantRowsFor s row.fileId row.userId ++ [row] := by
    simp [grantRowsFor, createFilePermission, List.filter_append]
  rw [hsplit, List.length_append]
  simpa using h

/-- Witness for the amended C1 at a concrete input: a store already holding
one grant row for (file 1, user 2) holds two after the insert. -/
theorem createFilePermission_duplicates_pair_witness :
    1 ≤ (grantRowsFor ⟨[⟨1, 1⟩], [⟨10, 1, 2, true, false, false⟩]⟩ 1 2).length ∧
    2 ≤ (grantRowsFor
      (createFilePermission ⟨[⟨1, 1⟩], [⟨10, 1, 2, true, false, false⟩]⟩
        ⟨11, 1, 2, true, true, true⟩) 1 2).length :=
  ⟨by decide,
    createFilePermission_duplicates_pair
      ⟨[⟨1, 1⟩], [⟨10, 1, 2, true, false, false⟩]⟩
      ⟨11, 1, 2, true, true, true⟩ (by decide)⟩

/-- A file returned by `getFile s id` has id `id` (it is the head of the
rows filtered by `f.id == id`). -/
theorem getFile_id (s : Store) (id : Nat) (f : File)
    (h : getFile s id = some f) : f.id = id := by
  have hm : f ∈ s.files.filter (fun g => g.id == id) := by
    unfold getFile at h
    cases hl : s.files.filter (fun g => g.id == id) with
    | nil => rw [hl] at h; cases h
    | cons a t =>
      rw [hl] at h
      simp only [List.head?_cons, Option.some.injEq] at h
      simp [hl, h]
  have := (List.mem_filter.mp hm).2
  simpa using this

/-- C3 counterexample: user 2 is neither admin nor owner of file 1 but
holds the grant (file 1, user 2) with canShare = true, so the claim says
user 2 may update and delete other users' grants on file 1. The code
rejects both: PATCH and DELETE answer 403 and change nothing. -/
theorem canShare_update_delete_counterexample :
    getUserFilePermission ⟨[⟨1, 3⟩], [⟨1, 1, 2, true, false, true⟩]⟩ 1 2 =
      some ⟨1, 1, 2, true, false, true⟩ ∧
    (⟨1, 1, 2, true, false, true⟩ : FilePermission).canShare = true ∧
    patchPermissionRoute true ⟨2, "bob", false⟩
        ⟨[⟨1, 3⟩], [⟨1, 1, 2, true, false, true⟩]⟩ 1 1
        ⟨some true, some false, some false⟩ =
      (PermResponse.forbiddenR, ⟨[⟨1, 3⟩], [⟨1, 1, 2, true, false, true⟩]⟩) ∧
    deletePermissionRoute true ⟨2, "bob", false⟩
        ⟨[⟨1, 3⟩], [⟨1, 1, 2, true, false, true⟩]⟩ 1 1 =
      (PermResponse.forbiddenR, ⟨[⟨1, 3⟩], [⟨1, 1, 2, true, false, true⟩]⟩) := by
  refine ⟨rfl, rfl, ?_, ?_⟩ <;> rfl

/-- C3 as amended: for an existing file, creating another user's grant
succeeds exactly for an admin, the owner, or an actor whose own grant has
BOTH canRead (demanded by the ensureFileAccess middleware) and canShare
(demanded by the POST handler); updating a grant is forbidden exactly when
the actor is neither admin nor owner; and deleting a grant succeeds exactly
when the actor is admin or owner — canShare confers create authority only,
not update or delete. -/
theorem grant_management_authorization (u : User) (s : Store) (fileId : Nat)
    (file : File) (body : PostBody) (newId pid : Nat) (b : PatchBody)
    (hf : getFile s fileId = some file) :
    ((∃ row, (postPermissionRoute true u s fileId body newId).1 =
        PermResponse.created row) ↔
      (isOwnerOrAdmin u file = true ∨
        ∃ g, getUserFilePermission s fileId u.id = some g ∧
          g.canRead = true ∧ g.canShare = true)) ∧
    ((patchPermissionRoute true u s fileId pid b).1 = PermResponse.forbiddenR ↔
      isOwnerOrAdmin u file = false) ∧
    ((deletePermissionRoute true u s fileId pid).1 = PermResponse.okStatus ↔
      isOwnerOrAdmin u file = true) := by
  have hid : file.id = fileId := getFile_id s fileId file hf
  by_cases hoa : isOwnerOrAdmin u file = true
  · have hmid : ensureFileAccess true u s fileId = AccessResult.ok := by
      simp [ensureFileAccess, hf, hoa]
    have hmg : canManagePermissions u file s = true := by
      simp [canManagePermissions, hoa]
    refine ⟨?_, ?_, ?_⟩
    · simp [postPermissionRoute, hmid, hf, hmg, hoa]
    · rcases hupd : updateFilePermission s pid b with _ | ⟨q, s'⟩ <;>
        simp [patchPermissionRoute, hmid, hf, hoa, hupd]
    · simp [deletePermissionRoute, hmid, hf, hoa]
  · have hoa' : isOwnerOrAdmin u file = false := by simpa using hoa
    rcases hg : getUserFilePermission s fileId u.id with _ | g
    · have hmid : ensureFileAccess true u s fileId =
          AccessResult.accessDenied := by
        simp [ensureFileAccess, hf, hoa', hg]
      refine ⟨?_, ?_, ?_⟩ <;>
        simp [postPermissionRoute, patchPermissionRoute,
          deletePermissionRoute, hmid, hg, hoa']
    · by_cases hr : g.canRead = true
      · have hmid : ensureFileAccess true u s fileId = AccessResult.ok := by
          simp [ensureFileAccess, hf, hoa', hg, hr]
        have hmg : canManagePermissions u file s = g.canShare := by
          simp [canManagePermissions, hoa', hid, hg]
        refine ⟨?_, ?_, ?_⟩
        · by_cases hsh : g.canShare = true <;>
            simp [postPermissionRoute, hmid, hf, hmg, hsh, hoa', hg, hr]
        · simp [patchPermissionRoute, hmid, hf, hoa']
        · simp [deletePermissionRoute, hmid, hf, hoa']
      · have hr' : g.canRead = false := by simpa using hr
        have hmid : ensureFileAccess true u s fileId =
            AccessResult.accessDenied := by
          simp [ensureFileAccess, hf, hoa', hg, hr']
        refine ⟨?_, ?_, ?_⟩ <;>
          simp [postPermissionRoute, patchPermissionRoute,
            deletePermissionRoute, hmid, hg, hoa', hr']

/-- Witness for the amended C3 at a concrete input: the canShare-only actor
of the counterexample store: may create, may not update, may not delete. -/
theorem grant_management_authorization_witness :
    getFile ⟨[⟨1, 3⟩], [⟨1, 1, 2, true, false, true⟩]⟩ 1 = some ⟨1, 3⟩ ∧
    (((∃ row, (postPermissionRoute true ⟨2, "bob", false⟩
        ⟨[⟨1, 3⟩], [⟨1, 1, 2, true, false, true⟩]⟩ 1
        ⟨9, none, none, none⟩ 5).1 = PermResponse.created row) ↔
      (isOwnerOrAdmin ⟨2, "bob", false⟩ ⟨1, 3⟩ = true ∨
        ∃ g, getUserFilePermission
            ⟨[⟨1, 3⟩], [⟨1, 1, 2, true, false, true⟩]⟩ 1 2 = some g ∧
          g.canRead = true ∧ g.canShare = true)) ∧
    ((patchPermissionRoute true ⟨2, "bob", false⟩
        ⟨[⟨1, 3⟩], [⟨1, 1, 2, true, false, true⟩]⟩ 1 1
        ⟨some true, some false, some false⟩).1 = PermResponse.forbiddenR ↔
      isOwnerOrAdmin ⟨2, "bob", false⟩ ⟨1, 3⟩ = false) ∧
    ((deletePermissionRoute true ⟨2, "bob", false⟩
        ⟨[⟨1, 3⟩], [⟨1, 1, 2, true, false, true⟩]⟩ 1 1).1 =
        PermResponse.okStatus ↔
      isOwnerOrAdmin ⟨2, "bob", false⟩ ⟨1, 3⟩ = true)) :=
  ⟨rfl, grant_management_authorization ⟨2, "bob", false⟩
    ⟨[⟨1, 3⟩], [⟨1, 1, 2, true, false, true⟩]⟩ 1 ⟨1, 3⟩
    ⟨9, none, none, none⟩ 5 1 ⟨some true, some false, some false⟩ rfl⟩

/-- C4 counterexample: the claim says a self-targeting grant request is
rejected as a denial by the server for every actor, owners included. The
non-admin owner of file 1 POSTs a grant whose target userId is their own
id: the server answers 201 Created and stores the self-grant. -/
theorem self_share_accepted_counterexample :
    postPermissionRoute true ⟨1, "alice", false⟩ ⟨[⟨1, 1⟩], []⟩ 1
        ⟨1, none, none, none⟩ 7 =
      (PermResponse.created ⟨7, 1, 1, true, false, false⟩,
        ⟨[⟨1, 1⟩], [⟨7, 1, 1, true, false, false⟩]⟩) := by
  rfl

/-- C4 as amended: the self-share rejection lives only in the client. On
the server, any actor who passes `ensureFileAccess` and the manage check
gets a 201 even when the target userId is their own id; the client-side
`handleAddPermission` is what refuses ("You cannot share with yourself")
when the typed username resolves to the current user, and it then submits
no request. -/
theorem self_share_server_accepts_client_rejects (u : User) (s : Store)
    (fileId : Nat) (file : File) (body : PostBody) (newId : Nat)
    (users : List User) (w : User) (username : String)
    (hf : getFile s fileId = some file)
    (hmid : ensureFileAccess true u s fileId = AccessResult.ok)
    (hmg : canManagePermissions u file s = true)
    (hself : body.userId = u.id)
    (hfind : users.find? (fun v => v.username == username) = some w)
    (hwid : w.id = u.id) :
    (postPermissionRoute true u s fileId body newId).1 =
      PermResponse.created
        { id := newId, fileId := fileId, userId := u.id
          canRead := body.canRead.getD true
          canWrite := body.canWrite.getD false
          canShare := body.canShare.getD false } ∧
    handleAddPermission users u.id username =
      ClientShareAction.selfShareToast := by
  constructor
  · simp [postPermissionRoute, hmid, hf, hmg, hself]
  · simp [handleAddPermission, hfind, hwid]

/-- Witness for the amended C4 at a concrete input: owner alice (id 1)
self-shares file 1 on the server and is stopped only by the dialog's own
check when she types her own username. -/
theorem self_share_server_accepts_client_rejects_witness :
    getFile ⟨[⟨1, 1⟩], []⟩ 1 = some ⟨1, 1⟩ ∧
    ensureFileAccess true ⟨1, "alice", false⟩ ⟨[⟨1, 1⟩], []⟩ 1 =
      AccessResult.ok ∧
    canManagePermissions ⟨1, "alice", false⟩ ⟨1, 1⟩ ⟨[⟨1, 1⟩], []⟩ = true ∧
    (⟨1, none, none, none⟩ : PostBody).userId = 1 ∧
    [(⟨1, "alice", false⟩ : User)].find?
      (fun v => v.username == "alice") = some ⟨1, "alice", false⟩ ∧
    ((postPermissionRoute true ⟨1, "alice", false⟩ ⟨[⟨1, 1⟩], []⟩ 1
        ⟨1, none, none, none⟩ 7).1 =
      PermResponse.created
        { id := 7, fileId := 1, userId := 1
          canRead := (⟨1, none, none, none⟩ : PostBody).canRead.getD true
          canWrite := (⟨1, none, none, none⟩ : PostBody).canWrite.getD false
          canShare :=
            (⟨1, none, none, none⟩ : PostBody).canShare.getD false } ∧
      handleAddPermission [⟨1, "alice", false⟩] 1 "alice" =
        ClientShareAction.selfShareToast) :=
  ⟨rfl, rfl, rfl, rfl, rfl,
    self_share_server_accepts_client_rejects ⟨1, "alice", false⟩
      ⟨[⟨1, 1⟩], []⟩ 1 ⟨1, 1⟩ ⟨1, none, none, none⟩ 7
      [⟨1, "alice", false⟩] ⟨1, "alice", false⟩ "alice"
      rfl rfl rfl rfl rfl rfl⟩

/-- C2: the WebSocket handler re-broadcasts whatever a client sends,
verbatim, to every open connection — here a forged string reaches both open
peers untouched while the closed one keeps nothing. No route handler ever
produces a server-originated event: none of them references the WebSocket
server at all. -/
theorem ws_relay_echoes_client_messages :
    broadcastOnMessage [⟨1, true, []⟩, ⟨2, true, []⟩, ⟨3, false, []⟩]
        "forged permission_update from a client" =
      [⟨1, true, ["forged permission_update from a client"]⟩,
        ⟨2, true, ["forged permission_update from a client"]⟩,
        ⟨3, false, []⟩] := by
  rfl

/-- C5: a channel is subscribed (open, empty inbox) before an admin's PATCH
of grant row 1 on file 1; the mutation commits (200 with the updated row),
yet the channel's inbox is still empty afterwards — the mutation path never
touches the WebSocket clients, so no `permission_update` is ever sent. -/
theorem grant_mutation_sends_no_events :
    (patchPermissionServer true ⟨9, "root", true⟩
        ⟨⟨[⟨1, 2⟩], [⟨1, 1, 3, true, false, false⟩]⟩, [⟨1, true, []⟩]⟩ 1 1
        ⟨some true, some true, some false⟩).1 =
      PermResponse.okJson (some ⟨1, 1, 3, true, true, false⟩) ∧
    (patchPermissionServer true ⟨9, "root", true⟩
        ⟨⟨[⟨1, 2⟩], [⟨1, 1, 3, true, false, false⟩]⟩, [⟨1, true, []⟩]⟩ 1 1
        ⟨some true, some true, some false⟩).2.clients =
      [⟨1, true, []⟩] := by
  exact ⟨rfl, rfl⟩

end WFM
